import Mathlib

/-!
Verification of the core pipeline of `app.py` (covid_drug_screening):
a shallow embedding of the fingerprint encoder, the pandas-style table
operations the script uses, and the batch orchestration, together with
theorems settling the specification's claims.

The external collaborators (RDKit's SMILES parser and Morgan generator,
and the pre-trained regression model) are opaque artifacts, so they are
abstracted as parameters; theorems that depend on their documented
contracts (fingerprint width 1024, one prediction per input row) take
those contracts as hypotheses.
-/

set_option maxRecDepth 40000

namespace Covid

/-- A pandas cell value as they occur in `app.py`: SMILES strings from the
uploaded CSV, fingerprint lists (`list(fp)` of RDKit bits), model
predictions, or a missing value (NaN/None). -/
inductive Cell (P : Type) where
  | str (s : String)
  | fp (v : List Int)
  | pred (p : P)
  | na
  deriving DecidableEq

/-- pandas NA test (`isna`): only the missing value is NA; lists and
strings are not. -/
def Cell.isNA {P : Type} : Cell P → Bool
  | Cell.na => true
  | _ => false

/-- True exactly on string cells (the cells `Chem.MolFromSmiles` accepts). -/
def Cell.isStr {P : Type} : Cell P → Bool
  | Cell.str _ => true
  | _ => false

/-- True on string cells whose string the given parser rejects. -/
def Cell.unparseable {Mol P : Type} (MolFromSmiles : String → Option Mol) : Cell P → Bool
  | Cell.str s => (MolFromSmiles s).isNone
  | _ => false

/-- A pandas DataFrame: a list of column labels over rows of cells. -/
structure DataFrame (α : Type) where
  columns : List String
  rows : List (List α)
  deriving DecidableEq

/-- Well-formedness: every row is as wide as the column list. -/
@[reducible]
def DataFrame.Wf {α : Type} (f : DataFrame α) : Prop :=
  ∀ r ∈ f.rows, r.length = f.columns.length

/-- First index of a column label in a label list (pandas label lookup). -/
def colIdxAux (name : String) : List String → Option Nat
  | [] => none
  | c :: cs => if c = name then some 0 else (colIdxAux name cs).map (fun i => i + 1)

/-- First index of a column label in the frame. -/
def DataFrame.colIdx {α : Type} (f : DataFrame α) (name : String) : Option Nat :=
  colIdxAux name f.columns

/-- Column extraction `df[name]` as a list of values; `none` models the
KeyError pandas raises for an unknown label. Out-of-range cells of a
ragged row read as the default `d`. -/
def DataFrame.getColD {α : Type} (f : DataFrame α) (d : α) (name : String) :
    Option (List α) :=
  (f.colIdx name).map (fun i => f.rows.map (fun r => r.getD i d))

/-- Column assignment `df[name] = vals`: overwrites an existing column and
appends a new one otherwise; pandas raises a ValueError when the value
list's length does not match the row count. -/
def DataFrame.setColE {α : Type} (f : DataFrame α) (name : String) (vals : List α) :
    Except String (DataFrame α) :=
  if vals.length = f.rows.length then
    Except.ok (match f.colIdx name with
      | some i => ⟨f.columns, List.zipWith (fun r v => r.set i v) f.rows vals⟩
      | none => ⟨f.columns ++ [name], List.zipWith (fun r v => r ++ [v]) f.rows vals⟩)
  else Except.error "ValueError: Length of values does not match length of index"

/-- `df.dropna(subset=[name])`: keep the rows whose cell in column `name`
is not NA; unknown label raises a KeyError. -/
def DataFrame.dropnaOn {α : Type} (f : DataFrame α) (isna : α → Bool) (d : α)
    (name : String) : Except String (DataFrame α) :=
  match f.colIdx name with
  | none => Except.error "KeyError"
  | some i => Except.ok ⟨f.columns, f.rows.filter (fun r => !(isna (r.getD i d)))⟩

/-- Column selection `df[names]`, keeping the order of `names`; any label
absent from the frame raises a KeyError. -/
def DataFrame.selectCols {α : Type} (f : DataFrame α) (d : α) (names : List String) :
    Except String (DataFrame α) :=
  if ∀ n ∈ names, n ∈ f.columns then
    Except.ok ⟨names, f.rows.map (fun r => names.map (fun n =>
      match colIdxAux n f.columns with
      | some i => r.getD i d
      | none => d))⟩
  else Except.error "KeyError: columns not in index"

/-- RDKit's Morgan generator (`rdFingerprintGenerator.GetMorganGenerator`),
an external collaborator: its construction parameters and its bit-vector
computation on parsed molecules, abstracted. -/
structure MorganGenerator (Mol : Type) where
  radius : Nat
  fpSize : Nat
  getFingerprint : Mol → List Int

/-- `app.py` lines 35-41: `compute_morgan_fingerprint`. `MolFromSmiles` is
RDKit's parser, returning `none` exactly when the Python function gets a
falsy (None) molecule; on failure the function returns `[0] * 1024`. -/
def compute_morgan_fingerprint {Mol : Type} (MolFromSmiles : String → Option Mol)
    (morgan_gen : MorganGenerator Mol) (smiles : String) : List Int :=
  match MolFromSmiles smiles with
  | some mol => morgan_gen.getFingerprint mol
  | none => List.replicate 1024 0

/-- The fingerprint cell produced for one SMILES cell by the `apply` on
line 121; a non-string argument makes RDKit raise, which is modelled
separately in `fingerprintCells`. -/
def fingerprintCellOf {Mol P : Type} (MolFromSmiles : String → Option Mol)
    (gen : MorganGenerator Mol) (c : Cell P) : Cell P :=
  match c with
  | Cell.str s => Cell.fp (compute_morgan_fingerprint MolFromSmiles gen s)
  | _ => Cell.na

/-- `molecules_df['SMILES'].apply(compute_morgan_fingerprint)` (line 121):
each string cell becomes a fingerprint list; a non-string cell (NaN from
the CSV) makes `Chem.MolFromSmiles` raise, modelled as an error. -/
def fingerprintCells {Mol P : Type} (MolFromSmiles : String → Option Mol)
    (gen : MorganGenerator Mol) : List (Cell P) → Except String (List (Cell P))
  | [] => Except.ok []
  | c :: cs =>
    match c with
    | Cell.str s =>
      match fingerprintCells MolFromSmiles gen cs with
      | Except.ok rest =>
        Except.ok (Cell.fp (compute_morgan_fingerprint MolFromSmiles gen s) :: rest)
      | Except.error e => Except.error e
    | _ => Except.error "ArgumentError: MolFromSmiles expects a string"

/-- `valid_molecules['Fingerprint'].tolist()` (line 131): the fingerprint
column's lists, row-aligned. -/
def fingerprintMatrix {P : Type} (cells : List (Cell P)) : List (List Int) :=
  cells.map (fun c => match c with | Cell.fp v => v | _ => [])

/-- Line 131: `pd.DataFrame(..., columns=[f"morgan_fp_{i}" for i in range(1024)])`. -/
def mkX (fps : List (List Int)) : DataFrame Int :=
  ⟨(List.range 1024).map (fun i => "morgan_fp_" ++ toString i), fps⟩

/-- Line 132: `X.columns = [str(i) for i in range(X.shape[1])]`. -/
def renameNumericCols (X : DataFrame Int) : DataFrame Int :=
  ⟨(List.range X.columns.length).map (fun i => toString i), X.rows⟩

/-- The user-facing message of line 108. -/
def missingColumnMessage : String := "O arquivo deve conter uma coluna chamada 'SMILES'."

/-- The user-facing message of line 126. -/
def noValidMoleculesMessage : String := "Nenhuma molécula válida encontrada no arquivo."

/-- Outcome of one submission: the specific missing-column report, the
specific empty-valid-set report, the top-level generic handler's report
(line 159) for any exception raised inside the `try`, or success carrying
the session result table and the two-column download frame. -/
inductive RunResult (P : Type) where
  | missingColumn (msg : String)
  | noValidMolecules (msg : String)
  | genericError (msg : String)
  | success (table : DataFrame (Cell P)) (download : DataFrame (Cell P))
  deriving DecidableEq

/-- Lines 130-157, after the empty check: build `X`, select
`reduced_columns`, predict, attach the prediction column, and build the
two-column result (used both for display on line 143 and the download on
line 151). Every raised exception funnels to the generic handler. -/
def predictAndAttach {P : Type} (model : List (List Int) → List P)
    (reduced_columns : List String) (valid_molecules : DataFrame (Cell P)) :
    RunResult P :=
  match valid_molecules.getColD Cell.na "Fingerprint" with
  | none => RunResult.genericError "KeyError: Fingerprint"
  | some fpCells =>
    match (renameNumericCols (mkX (fingerprintMatrix fpCells))).selectCols 0 reduced_columns with
    | Except.error e => RunResult.genericError e
    | Except.ok X_reduced =>
      match valid_molecules.setColE "Predição_Bioatividade"
          ((model X_reduced.rows).map Cell.pred) with
      | Except.error e => RunResult.genericError e
      | Except.ok withPred =>
        match withPred.selectCols Cell.na ["SMILES", "Predição_Bioatividade"] with
        | Except.error e => RunResult.genericError e
        | Except.ok download => RunResult.success withPred download

/-- Lines 117-159: the `try` block. Fingerprint each SMILES cell, attach
the `Fingerprint` column, `dropna` on it, report the empty-valid-set
condition, and otherwise continue with `predictAndAttach`; any exception
is caught by the top-level handler and reported generically. -/
def processMolecules {Mol P : Type} (MolFromSmiles : String → Option Mol)
    (gen : MorganGenerator Mol) (model : List (List Int) → List P)
    (reduced_columns : List String) (molecules_df : DataFrame (Cell P)) :
    RunResult P :=
  match molecules_df.getColD Cell.na "SMILES" with
  | none => RunResult.genericError "KeyError: SMILES"
  | some smilesCells =>
    match fingerprintCells MolFromSmiles gen smilesCells with
    | Except.error e => RunResult.genericError e
    | Except.ok fps =>
      match molecules_df.setColE "Fingerprint" fps with
      | Except.error e => RunResult.genericError e
      | Except.ok withFp =>
        match withFp.dropnaOn Cell.isNA Cell.na "Fingerprint" with
        | Except.error e => RunResult.genericError e
        | Except.ok valid_molecules =>
          if valid_molecules.rows.isEmpty then
            RunResult.noValidMolecules noValidMoleculesMessage
          else predictAndAttach model reduced_columns valid_molecules

/-- Lines 104-115 and 117: the upload handling. A table lacking a `SMILES`
column gets the specific error and is set to `None`, so no processing
happens; otherwise the `try` block runs. -/
def runUpload {Mol P : Type} (MolFromSmiles : String → Option Mol)
    (gen : MorganGenerator Mol) (model : List (List Int) → List P)
    (reduced_columns : List String) (molecules_df : DataFrame (Cell P)) :
    RunResult P :=
  if "SMILES" ∈ molecules_df.columns then
    processMolecules MolFromSmiles gen model reduced_columns molecules_df
  else RunResult.missingColumn missingColumnMessage

/-- Lines 81-91: the bundled example table. -/
def example_data (P : Type) : DataFrame (Cell P) :=
  ⟨["SMILES"],
   [[Cell.str "CCO"], [Cell.str "CCCC"], [Cell.str "CC(=O)O"],
    [Cell.str "CCN(CC)CC"], [Cell.str "CC(C)O"]]⟩

/-- Concrete stand-in parser used by witnesses: accepts exactly the example
molecules. -/
def toyMolFromSmiles : String → Option String :=
  fun s => if s ∈ ["CCO", "CCCC", "CC(=O)O", "CCN(CC)CC", "CC(C)O"] then some s else none

/-- Concrete stand-in Morgan generator used by witnesses. -/
def toyGen : MorganGenerator String :=
  ⟨2, 1024, fun _ => List.replicate 1024 1⟩

/-- Concrete stand-in regression model used by witnesses: one constant
prediction per input row. -/
def toyModel : List (List Int) → List Int :=
  fun xs => xs.map (fun _ => 0)

/-- Witness upload: one row, one unparseable SMILES string. -/
def dfOneRow : DataFrame (Cell Int) := ⟨["SMILES"], [[Cell.str "QQ"]]⟩

/-- Witness upload: two rows of unparseable SMILES strings. -/
def dfTwoRows : DataFrame (Cell Int) := ⟨["SMILES"], [[Cell.str "AA"], [Cell.str "BB"]]⟩

/-- Witness upload lacking the SMILES column. -/
def dfNoSmiles : DataFrame (Cell Int) := ⟨["Name"], [[Cell.str "ethanol"]]⟩

/-- Witness upload carrying an extra user column. -/
def dfExtra : DataFrame (Cell Int) := ⟨["SMILES", "extra"], [[Cell.str "QQ", Cell.str "keep"]]⟩

/-- Counterexample upload: an extra user column that happens to be named
`Fingerprint`. -/
def dfFpColumn : DataFrame (Cell Int) :=
  ⟨["SMILES", "Fingerprint"], [[Cell.str "QQ", Cell.str "user-data"]]⟩

/-- The session result table the pipeline produces for `dfOneRow` and for
`dfFpColumn` (the uploaded `Fingerprint` cell is overwritten). -/
def tblOneRow : DataFrame (Cell Int) :=
  ⟨["SMILES", "Fingerprint", "Predição_Bioatividade"],
   [[Cell.str "QQ", Cell.fp (List.replicate 1024 0), Cell.pred 0]]⟩

/-- The download frame the pipeline produces for `dfOneRow` and `dfFpColumn`. -/
def dlOneRow : DataFrame (Cell Int) :=
  ⟨["SMILES", "Predição_Bioatividade"], [[Cell.str "QQ", Cell.pred 0]]⟩

/-- Witness fingerprint frame for the feature-selector claims. -/
def Xw : DataFrame Int := ⟨["0", "1", "2"], [[5, 7, 9], [1, 2, 3]]⟩

theorem colIdxAux_lt_getD {name : String} {l : List String} {i : Nat}
    (h : colIdxAux name l = some i) : i < l.length ∧ l.getD i "" = name := by
  induction l generalizing i with
  | nil => simp [colIdxAux] at h
  | cons c cs ih =>
    simp only [colIdxAux] at h
    by_cases hc : c = name
    · rw [if_pos hc] at h
      cases h
      exact ⟨Nat.succ_pos _, hc⟩
    · rw [if_neg hc] at h
      obtain ⟨j, hj, rfl⟩ := Option.map_eq_some'.mp h
      obtain ⟨hlt, hgd⟩ := ih hj
      exact ⟨Nat.succ_lt_succ hlt, hgd⟩

theorem colIdxAux_mem {name : String} {l : List String} (h : name ∈ l) :
    ∃ i, colIdxAux name l = some i := by
  induction l with
  | nil => simp at h
  | cons c cs ih =>
    by_cases hc : c = name
    · exact ⟨0, by simp only [colIdxAux, if_pos hc]⟩
    · have hm : name ∈ cs := by
        cases h with
        | head => exact absurd rfl hc
        | tail _ h2 => exact h2
      obtain ⟨i, hi⟩ := ih hm
      exact ⟨i + 1, by simp only [colIdxAux, if_neg hc, hi, Option.map_some']⟩

theorem colIdxAux_not_mem {name : String} {l : List String} (h : name ∉ l) :
    colIdxAux name l = none := by
  induction l with
  | nil => rfl
  | cons c cs ih =>
    have hc : ¬ (c = name) := by
      rintro rfl
      exact h (List.mem_cons_self c cs)
    have h2 : name ∉ cs := fun hm => h (List.mem_cons_of_mem c hm)
    simp only [colIdxAux, if_neg hc, ih h2, Option.map_none']

theorem mem_of_colIdxAux {name : String} {l : List String} {i : Nat}
    (h : colIdxAux name l = some i) : name ∈ l := by
  obtain ⟨hi, hgd⟩ := colIdxAux_lt_getD h
  refine List.mem_iff_getElem.mpr ⟨i, hi, ?_⟩
  rw [List.getD_eq_getElem?_getD, List.getElem?_eq_getElem hi] at hgd
  simpa using hgd

theorem colIdxAux_append_some {name : String} {l l₂ : List String} {i : Nat}
    (h : colIdxAux name l = some i) : colIdxAux name (l ++ l₂) = some i := by
  induction l generalizing i with
  | nil => simp [colIdxAux] at h
  | cons c cs ih =>
    have hof : (c :: cs) ++ l₂ = c :: (cs ++ l₂) := rfl
    rw [hof]
    simp only [colIdxAux] at h ⊢
    by_cases hc : c = name
    · rw [if_pos hc] at h ⊢
      exact h
    · rw [if_neg hc] at h ⊢
      obtain ⟨j, hj, rfl⟩ := Option.map_eq_some'.mp h
      rw [ih hj, Option.map_some']

theorem colIdxAux_append_new {name : String} {l : List String} (h : name ∉ l) :
    colIdxAux name (l ++ [name]) = some l.length := by
  induction l with
  | nil => simp [colIdxAux]
  | cons c cs ih =>
    have hc : ¬ (c = name) := by
      rintro rfl
      exact h (List.mem_cons_self c cs)
    have h2 : name ∉ cs := fun hm => h (List.mem_cons_of_mem c hm)
    have hof : (c :: cs) ++ [name] = c :: (cs ++ [name]) := rfl
    rw [hof]
    simp only [colIdxAux, if_neg hc, ih h2, Option.map_some', List.length_cons]

theorem colIdxAux_ne_of_ne {a b : String} {l : List String} {i j : Nat}
    (ha : colIdxAux a l = some i) (hb : colIdxAux b l = some j) (hab : a ≠ b) :
    i ≠ j := by
  rintro rfl
  obtain ⟨_, hga⟩ := colIdxAux_lt_getD ha
  obtain ⟨_, hgb⟩ := colIdxAux_lt_getD hb
  exact hab (hga.symm.trans hgb)

theorem getD_set_self {α : Type} {l : List α} {i : Nat} (h : i < l.length) (v d : α) :
    (l.set i v).getD i d = v := by
  simp [List.getD_eq_getElem?_getD, List.getElem?_set_self h]

theorem getD_set_ne {α : Type} {l : List α} {i j : Nat} (h : i ≠ j) (v d : α) :
    (l.set i v).getD j d = l.getD j d := by
  simp [List.getD_eq_getElem?_getD, List.getElem?_set_ne h]

theorem getD_concat_self {α : Type} (l : List α) (v d : α) :
    (l ++ [v]).getD l.length d = v := by
  simp [List.getD_eq_getElem?_getD, List.getElem?_concat_length]

theorem getD_append_lt {α : Type} {l : List α} {j : Nat} (h : j < l.length)
    (l₂ : List α) (d : α) : (l ++ l₂).getD j d = l.getD j d := by
  simp [List.getD_eq_getElem?_getD, List.getElem?_append_left h]

theorem zipWith_length_left {α β γ : Type} {as : List α} {bs : List β}
    {k : α → β → γ} (hlen : bs.length = as.length) :
    (List.zipWith k as bs).length = as.length := by
  simp [List.length_zipWith, hlen]

theorem zipWith_set_wf {α : Type} {rows : List (List α)} {vals : List α}
    {i w : Nat} (hwf : ∀ r ∈ rows, r.length = w) :
    ∀ r ∈ List.zipWith (fun r v => r.set i v) rows vals, r.length = w := by
  induction rows generalizing vals with
  | nil => simp
  | cons r rs ih =>
    cases vals with
    | nil => simp
    | cons v vs =>
      intro x hx
      rw [List.zipWith_cons_cons] at hx
      cases hx with
      | head => simpa using hwf r (List.mem_cons_self r rs)
      | tail _ h2 => exact ih (fun q hq => hwf q (List.mem_cons_of_mem r hq)) x h2

theorem zipWith_concat_wf {α : Type} {rows : List (List α)} {vals : List α}
    {w : Nat} (hwf : ∀ r ∈ rows, r.length = w) :
    ∀ r ∈ List.zipWith (fun r v => r ++ [v]) rows vals, r.length = w + 1 := by
  induction rows generalizing vals with
  | nil => simp
  | cons r rs ih =>
    cases vals with
    | nil => simp
    | cons v vs =>
      intro x hx
      rw [List.zipWith_cons_cons] at hx
      cases hx with
      | head => simpa using hwf r (List.mem_cons_self r rs)
      | tail _ h2 => exact ih (fun q hq => hwf q (List.mem_cons_of_mem r hq)) x h2

theorem map_getD_zipWith_set {α : Type} {rows : List (List α)} {vals : List α}
    {i : Nat} {d : α} (hlen : vals.length = rows.length)
    (hwf : ∀ r ∈ rows, i < r.length) :
    (List.zipWith (fun r v => r.set i v) rows vals).map (fun r => r.getD i d) = vals := by
  induction rows generalizing vals with
  | nil =>
    cases vals with
    | nil => rfl
    | cons v vs => simp at hlen
  | cons r rs ih =>
    cases vals with
    | nil => simp at hlen
    | cons v vs =>
      rw [List.zipWith_cons_cons, List.map_cons,
        getD_set_self (hwf r (List.mem_cons_self r rs)) v d,
        ih (by simpa using hlen) (fun q hq => hwf q (List.mem_cons_of_mem r hq))]

theorem map_getD_zipWith_set_ne {α : Type} {rows : List (List α)} {vals : List α}
    {i j : Nat} {d : α} (hij : i ≠ j) (hlen : vals.length = rows.length) :
    (List.zipWith (fun r v => r.set i v) rows vals).map (fun r => r.getD j d) =
      rows.map (fun r => r.getD j d) := by
  induction rows generalizing vals with
  | nil => simp
  | cons r rs ih =>
    cases vals with
    | nil => simp at hlen
    | cons v vs =>
      rw [List.zipWith_cons_cons, List.map_cons, List.map_cons,
        getD_set_ne hij v d, ih (by simpa using hlen)]

theorem map_getD_zipWith_concat_at {α : Type} {rows : List (List α)} {vals : List α}
    {w : Nat} {d : α} (hlen : vals.length = rows.length)
    (hwf : ∀ r ∈ rows, r.length = w) :
    (List.zipWith (fun r v => r ++ [v]) rows vals).map (fun r => r.getD w d) = vals := by
  induction rows generalizing vals with
  | nil =>
    cases vals with
    | nil => rfl
    | cons v vs => simp at hlen
  | cons r rs ih =>
    cases vals with
    | nil => simp at hlen
    | cons v vs =>
      have hr : r.length = w := hwf r (List.mem_cons_self r rs)
      have hval : (r ++ [v]).getD w d = v := by
        rw [← hr]
        exact getD_concat_self r v d
      rw [List.zipWith_cons_cons, List.map_cons, hval,
        ih (by simpa using hlen) (fun q hq => hwf q (List.mem_cons_of_mem r hq))]

theorem map_getD_zipWith_concat_lt {α : Type} {rows : List (List α)} {vals : List α}
    {j : Nat} {d : α} (hlen : vals.length = rows.length)
    (hwf : ∀ r ∈ rows, j < r.length) :
    (List.zipWith (fun r v => r ++ [v]) rows vals).map (fun r => r.getD j d) =
      rows.map (fun r => r.getD j d) := by
  induction rows generalizing vals with
  | nil => simp
  | cons r rs ih =>
    cases vals with
    | nil => simp at hlen
    | cons v vs =>
      rw [List.zipWith_cons_cons, List.map_cons, List.map_cons,
        getD_append_lt (hwf r (List.mem_cons_self r rs)) [v] d,
        ih (by simpa using hlen) (fun q hq => hwf q (List.mem_cons_of_mem r hq))]

theorem fingerprintCells_of_str {Mol P : Type} (MolFromSmiles : String → Option Mol)
    (gen : MorganGenerator Mol) {cs : List (Cell P)}
    (h : ∀ c ∈ cs, c.isStr = true) :
    fingerprintCells MolFromSmiles gen cs =
      Except.ok (cs.map (fingerprintCellOf MolFromSmiles gen)) := by
  induction cs with
  | nil => rfl
  | cons c cs ih =>
    have hc := h c (List.mem_cons_self c cs)
    cases c with
    | str s =>
      simp only [fingerprintCells, ih (fun q hq => h q (List.mem_cons_of_mem _ hq)),
        List.map_cons]
      rfl
    | fp v => simp [Cell.isStr] at hc
    | pred p => simp [Cell.isStr] at hc
    | na => simp [Cell.isStr] at hc

theorem setColE_spec {α : Type} (f : DataFrame α) (name : String) (vals : List α)
    (d : α) (hw : f.Wf) (hlen : vals.length = f.rows.length) :
    ∃ F, f.setColE name vals = Except.ok F ∧
      F.rows.length = f.rows.length ∧
      F.Wf ∧
      F.getColD d name = some vals ∧
      (∀ c, c ≠ name → F.getColD d c = f.getColD d c) ∧
      (∀ c, c ∈ f.columns → c ∈ F.columns) ∧
      name ∈ F.columns := by
  unfold DataFrame.setColE
  rw [if_pos hlen]
  cases h : f.colIdx name with
  | some i =>
    have h' : colIdxAux name f.columns = some i := h
    obtain ⟨hi, -⟩ := colIdxAux_lt_getD h'
    have hwfi : ∀ r ∈ f.rows, i < r.length := fun r hr => by
      rw [hw r hr]
      exact hi
    refine ⟨_, rfl, zipWith_length_left hlen, ?_, ?_, ?_, fun c hc => hc,
      mem_of_colIdxAux h'⟩
    · intro r hr
      exact zipWith_set_wf hw r hr
    · simp only [DataFrame.getColD, DataFrame.colIdx]
      rw [h', Option.map_some']
      rw [map_getD_zipWith_set hlen hwfi]
    · intro c hc
      simp only [DataFrame.getColD, DataFrame.colIdx]
      cases hcc : colIdxAux c f.columns with
      | none => rfl
      | some j =>
        rw [Option.map_some', Option.map_some']
        have hij : i ≠ j := (colIdxAux_ne_of_ne hcc h' hc).symm
        rw [map_getD_zipWith_set_ne hij hlen]
  | none =>
    have h' : colIdxAux name f.columns = none := h
    have hnm : name ∉ f.columns := by
      intro hm
      obtain ⟨k, hk⟩ := colIdxAux_mem hm
      rw [hk] at h'
      exact Option.noConfusion h'
    refine ⟨_, rfl, zipWith_length_left hlen, ?_, ?_, ?_,
      fun c hc => List.mem_append_left _ hc, List.mem_append_right _ (by simp)⟩
    · intro r hr
      have hr1 := zipWith_concat_wf hw r hr
      simpa [List.length_append] using hr1
    · simp only [DataFrame.getColD, DataFrame.colIdx]
      rw [colIdxAux_append_new hnm, Option.map_some']
      rw [map_getD_zipWith_concat_at hlen hw]
    · intro c hc
      simp only [DataFrame.getColD, DataFrame.colIdx]
      cases hcc : colIdxAux c f.columns with
      | some j =>
        rw [colIdxAux_append_some hcc, Option.map_some', Option.map_some']
        obtain ⟨hj, -⟩ := colIdxAux_lt_getD hcc
        have hwfj : ∀ r ∈ f.rows, j < r.length := fun r hr => by
          rw [hw r hr]
          exact hj
        rw [map_getD_zipWith_concat_lt hlen hwfj]
      | none =>
        have hcnm : c ∉ f.columns := by
          intro hm
          obtain ⟨k, hk⟩ := colIdxAux_mem hm
          rw [hk] at hcc
          exact Option.noConfusion hcc
        have hno : c ∉ f.columns ++ [name] := by
          simp only [List.mem_append, List.mem_singleton]
          rintro (hm | hm)
          · exact hcnm hm
          · exact hc hm
        rw [colIdxAux_not_mem hno]
        rfl

theorem dropnaOn_keep_all {α : Type} (f : DataFrame α) (isna : α → Bool) (d : α)
    (name : String) {i : Nat} (h : f.colIdx name = some i)
    (hall : ∀ r ∈ f.rows, isna (r.getD i d) = false) :
    f.dropnaOn isna d name = Except.ok f := by
  unfold DataFrame.dropnaOn
  rw [h]
  have hfilter : f.rows.filter (fun r => !(isna (r.getD i d))) = f.rows :=
    List.filter_eq_self.mpr (fun r hr => by rw [hall r hr]; rfl)
  show Except.ok (⟨f.columns, f.rows.filter (fun r => !(isna (r.getD i d)))⟩ :
    DataFrame α) = Except.ok f
  rw [hfilter]

theorem selectCols_ok {α : Type} (f : DataFrame α) (d : α) (names : List String)
    (h : ∀ n ∈ names, n ∈ f.columns) :
    ∃ G, f.selectCols d names = Except.ok G ∧ G.columns = names ∧
      G.rows.length = f.rows.length ∧ ∀ r ∈ G.rows, r.length = names.length := by
  unfold DataFrame.selectCols
  rw [if_pos h]
  refine ⟨_, rfl, rfl, by simp, ?_⟩
  intro r hr
  obtain ⟨q, hq, rfl⟩ := List.mem_map.mp hr
  simp

theorem selectCols_error {α : Type} (f : DataFrame α) (d : α) (names : List String)
    (h : ¬ ∀ n ∈ names, n ∈ f.columns) :
    f.selectCols d names = Except.error "KeyError: columns not in index" := by
  unfold DataFrame.selectCols
  rw [if_neg h]

theorem selectCols_ok_inv {α : Type} {f : DataFrame α} {d : α} {names : List String}
    {G : DataFrame α} (h : f.selectCols d names = Except.ok G) :
    G.columns = names ∧ G.rows.length = f.rows.length ∧
      (∀ r ∈ G.rows, r.length = names.length) ∧ ∀ n ∈ names, n ∈ f.columns := by
  unfold DataFrame.selectCols at h
  by_cases hc : ∀ n ∈ names, n ∈ f.columns
  · rw [if_pos hc] at h
    cases h
    refine ⟨rfl, by simp, ?_, hc⟩
    intro r hr
    obtain ⟨q, hq, rfl⟩ := List.mem_map.mp hr
    simp
  · rw [if_neg hc] at h
    exact Except.noConfusion h

theorem selectCols_getCol_head {α : Type} {f : DataFrame α} {d : α} {a : String}
    {rest : List String} {G : DataFrame α} {i : Nat} (hi : f.colIdx a = some i)
    (h : f.selectCols d (a :: rest) = Except.ok G) :
    G.getColD d a = f.getColD d a := by
  have hi' : colIdxAux a f.columns = some i := hi
  unfold DataFrame.selectCols at h
  by_cases hc : ∀ n ∈ a :: rest, n ∈ f.columns
  · rw [if_pos hc] at h
    cases h
    have hga : colIdxAux a (a :: rest) = some 0 := by
      simp [colIdxAux]
    simp only [DataFrame.getColD, DataFrame.colIdx]
    rw [hga, hi', Option.map_some', Option.map_some']
    congr 1
    rw [List.map_map]
    refine List.map_congr_left ?_
    intro r hr
    simp only [Function.comp_apply, List.map_cons, List.getD_cons_zero, hi']
  · rw [if_neg hc] at h
    exact Except.noConfusion h

theorem getColD_some_inv {α : Type} {f : DataFrame α} {d : α} {n : String}
    {vs : List α} (h : f.getColD d n = some vs) :
    ∃ i, colIdxAux n f.columns = some i ∧ vs = f.rows.map (fun r => r.getD i d) := by
  unfold DataFrame.getColD DataFrame.colIdx at h
  cases hcc : colIdxAux n f.columns with
  | none =>
    rw [hcc] at h
    exact Option.noConfusion h
  | some i =>
    rw [hcc, Option.map_some'] at h
    exact ⟨i, rfl, (Option.some.inj h).symm⟩

theorem getColD_length {α : Type} {f : DataFrame α} {d : α} {n : String}
    {vs : List α} (h : f.getColD d n = some vs) : vs.length = f.rows.length := by
  obtain ⟨i, -, rfl⟩ := getColD_some_inv h
  simp

theorem getColD_of_mem {α : Type} {f : DataFrame α} (d : α) {n : String}
    (h : n ∈ f.columns) : ∃ vs, f.getColD d n = some vs := by
  obtain ⟨i, hi⟩ := colIdxAux_mem h
  refine ⟨f.rows.map (fun r => r.getD i d), ?_⟩
  unfold DataFrame.getColD DataFrame.colIdx
  rw [hi, Option.map_some']

theorem renameNumericCols_mkX (fps : List (List Int)) :
    renameNumericCols (mkX fps) =
      ⟨(List.range 1024).map (fun i => toString i), fps⟩ := by
  have h1 : ((List.range 1024).map (fun i => "morgan_fp_" ++ toString i)).length =
      1024 := by
    rw [List.length_map, List.length_range]
  unfold renameNumericCols mkX
  rw [h1]

theorem stage1 {Mol P : Type} (MolFromSmiles : String → Option Mol)
    (gen : MorganGenerator Mol) (model : List (List Int) → List P)
    (reduced_columns : List String) (df : DataFrame (Cell P))
    (hw : df.Wf) (hS : "SMILES" ∈ df.columns)
    (hstr : ∀ c ∈ (df.getColD Cell.na "SMILES").getD [], Cell.isStr c = true)
    (hne : df.rows ≠ []) :
    ∃ F sc,
      runUpload MolFromSmiles gen model reduced_columns df =
        predictAndAttach model reduced_columns F ∧
      df.getColD Cell.na "SMILES" = some sc ∧
      sc.length = df.rows.length ∧
      (∀ c ∈ sc, Cell.isStr c = true) ∧
      F.rows.length = df.rows.length ∧
      F.Wf ∧
      F.getColD Cell.na "Fingerprint" =
        some (sc.map (fingerprintCellOf MolFromSmiles gen)) ∧
      (∀ c, c ≠ "Fingerprint" → F.getColD Cell.na c = df.getColD Cell.na c) ∧
      (∀ c, c ∈ df.columns → c ∈ F.columns) ∧
      "Fingerprint" ∈ F.columns := by
  obtain ⟨sc, hsc⟩ := getColD_of_mem Cell.na hS
  have hsc' : ∀ c ∈ sc, Cell.isStr c = true := by
    intro c hcm
    apply hstr
    rw [hsc]
    exact hcm
  have hlen_sc : sc.length = df.rows.length := getColD_length hsc
  have hfc := fingerprintCells_of_str MolFromSmiles gen hsc'
  have hmaplen : (sc.map (fingerprintCellOf MolFromSmiles gen)).length =
      df.rows.length := by
    rw [List.length_map, hlen_sc]
  obtain ⟨F, hset, hFlen, hFwf, hFget, hFother, hFmem, hFfp⟩ :=
    setColE_spec df "Fingerprint" (sc.map (fingerprintCellOf MolFromSmiles gen))
      Cell.na hw hmaplen
  obtain ⟨iF, hiF, hFvals⟩ := getColD_some_inv hFget
  have hallfp : ∀ r ∈ F.rows, Cell.isNA (r.getD iF Cell.na) = false := by
    intro r hr
    have hmm : r.getD iF Cell.na ∈ F.rows.map (fun r => r.getD iF Cell.na) :=
      List.mem_map_of_mem _ hr
    rw [← hFvals] at hmm
    obtain ⟨c, hcm, hceq⟩ := List.mem_map.mp hmm
    have hcs := hsc' c hcm
    cases c with
    | str s =>
      rw [← hceq]
      rfl
    | fp v => simp [Cell.isStr] at hcs
    | pred p => simp [Cell.isStr] at hcs
    | na => simp [Cell.isStr] at hcs
  have hdrop : F.dropnaOn Cell.isNA Cell.na "Fingerprint" = Except.ok F :=
    dropnaOn_keep_all F Cell.isNA Cell.na "Fingerprint" hiF hallfp
  have hFne : ¬ (F.rows.isEmpty = true) := by
    rw [List.isEmpty_eq_true]
    intro h0
    apply hne
    apply List.length_eq_zero.mp
    rw [← hFlen, h0]
    rfl
  refine ⟨F, sc, ?_, hsc, hlen_sc, hsc', hFlen, hFwf, hFget, hFother, hFmem, hFfp⟩
  simp only [runUpload, if_pos hS, processMolecules, hsc, hfc, hset, hdrop,
    if_neg hFne]

theorem pipeline_empty {Mol P : Type} (MolFromSmiles : String → Option Mol)
    (gen : MorganGenerator Mol) (model : List (List Int) → List P)
    (reduced_columns : List String) (df : DataFrame (Cell P))
    (hS : "SMILES" ∈ df.columns) (hrows : df.rows = []) :
    runUpload MolFromSmiles gen model reduced_columns df =
      RunResult.noValidMolecules noValidMoleculesMessage := by
  obtain ⟨sc, hsc⟩ := getColD_of_mem Cell.na hS
  have hsc0 : sc = [] := by
    obtain ⟨i, -, rfl⟩ := getColD_some_inv hsc
    rw [hrows]
    rfl
  rw [hsc0] at hsc
  have hfc : fingerprintCells MolFromSmiles gen ([] : List (Cell P)) =
      Except.ok [] := rfl
  have hw0 : df.Wf := by
    intro r hr
    rw [hrows] at hr
    simp at hr
  obtain ⟨F, hset, hFlen, -, -, -, -, hFfpmem⟩ :=
    setColE_spec df "Fingerprint" ([] : List (Cell P)) Cell.na hw0 (by simp [hrows])
  have hFrows : F.rows = [] := by
    apply List.length_eq_zero.mp
    rw [hFlen, hrows]
    rfl
  obtain ⟨iF, hiF⟩ := colIdxAux_mem hFfpmem
  have hdrop : F.dropnaOn Cell.isNA Cell.na "Fingerprint" = Except.ok F := by
    refine dropnaOn_keep_all F Cell.isNA Cell.na "Fingerprint" hiF ?_
    intro r hr
    rw [hFrows] at hr
    simp at hr
  have hFposB : F.rows.isEmpty = true := by
    rw [List.isEmpty_eq_true]
    exact hFrows
  simp only [runUpload, if_pos hS, processMolecules, hsc, hfc, hset, hdrop,
    if_pos hFposB]

set_option maxRecDepth 4000 in
theorem pipeline_success {Mol P : Type} (MolFromSmiles : String → Option Mol)
    (gen : MorganGenerator Mol) (model : List (List Int) → List P)
    (reduced_columns : List String) (df : DataFrame (Cell P))
    (hw : df.Wf) (hS : "SMILES" ∈ df.columns)
    (hstr : ∀ c ∈ (df.getColD Cell.na "SMILES").getD [], Cell.isStr c = true)
    (hred : ∀ c ∈ reduced_columns, c ∈ (List.range 1024).map (fun i => toString i))
    (hmodel : ∀ xs, (model xs).length = xs.length)
    (hne : df.rows ≠ []) :
    ∃ tbl dl sc,
      runUpload MolFromSmiles gen model reduced_columns df =
        RunResult.success tbl dl ∧
      df.getColD Cell.na "SMILES" = some sc ∧
      tbl.rows.length = df.rows.length ∧
      tbl.getColD Cell.na "Fingerprint" =
        some (sc.map (fingerprintCellOf MolFromSmiles gen)) ∧
      (∃ preds : List P, preds.length = df.rows.length ∧
        tbl.getColD Cell.na "Predição_Bioatividade" = some (preds.map Cell.pred)) ∧
      (∀ c, c ≠ "Fingerprint" → c ≠ "Predição_Bioatividade" →
        tbl.getColD Cell.na c = df.getColD Cell.na c) ∧
      dl.columns = ["SMILES", "Predição_Bioatividade"] ∧
      dl.rows.length = df.rows.length ∧
      dl.getColD Cell.na "SMILES" = df.getColD Cell.na "SMILES" := by
  obtain ⟨F, sc, hrun, hsc, hlen_sc, hsc', hFlen, hFwf, hFget, hFother, hFmem, hFfp⟩ :=
    stage1 MolFromSmiles gen model reduced_columns df hw hS hstr hne
  have hX := renameNumericCols_mkX
    (fingerprintMatrix (sc.map (fingerprintCellOf MolFromSmiles gen)))
  have hXall : ∀ n ∈ reduced_columns,
      n ∈ (DataFrame.mk ((List.range 1024).map (fun i => toString i))
        (fingerprintMatrix (sc.map (fingerprintCellOf MolFromSmiles gen)))).columns :=
    hred
  obtain ⟨G, hGsel, hGcols, hGlen, hGwidth⟩ :=
    selectCols_ok _ 0 reduced_columns hXall
  have hGrows : G.rows.length = df.rows.length := by
    rw [hGlen]
    show (fingerprintMatrix (sc.map (fingerprintCellOf MolFromSmiles gen))).length = _
    unfold fingerprintMatrix
    rw [List.length_map, List.length_map, hlen_sc]
  have hpredlen : (model G.rows).length = df.rows.length := by
    rw [hmodel, hGrows]
  obtain ⟨tbl, hset2, htlen, htwf, htget, htother, htmem, htpredmem⟩ :=
    setColE_spec F "Predição_Bioatividade" ((model G.rows).map Cell.pred) Cell.na
      hFwf (by rw [List.length_map, hpredlen, hFlen])
  have hSm : "SMILES" ∈ tbl.columns := htmem _ (hFmem _ hS)
  have hselall : ∀ n ∈ ["SMILES", "Predição_Bioatividade"], n ∈ tbl.columns := by
    intro n hn
    simp only [List.mem_cons, List.not_mem_nil, or_false] at hn
    rcases hn with rfl | rfl
    · exact hSm
    · exact htpredmem
  obtain ⟨dl, hdlsel, hdlcols, hdllen, hdlwidth⟩ :=
    selectCols_ok tbl Cell.na ["SMILES", "Predição_Bioatividade"] hselall
  obtain ⟨iS2, hiS2⟩ := colIdxAux_mem hSm
  have hdlS : dl.getColD Cell.na "SMILES" = tbl.getColD Cell.na "SMILES" :=
    selectCols_getCol_head hiS2 hdlsel
  refine ⟨tbl, dl, sc, ?_, hsc, by rw [htlen, hFlen], ?_,
    ⟨model G.rows, hpredlen, htget⟩, ?_, hdlcols, by rw [hdllen, htlen, hFlen], ?_⟩
  · rw [hrun]
    simp only [predictAndAttach, hFget, hX, hGsel, hset2, hdlsel]
  · rw [htother "Fingerprint" (by decide), hFget]
  · intro c h1 h2
    rw [htother c h2, hFother c h1]
  · rw [hdlS, htother "SMILES" (by decide), hFother "SMILES" (by decide)]

/-- Claim C1: for every input string the RDKit parser rejects (returns
None, hence falsy), `compute_morgan_fingerprint` returns a zero-filled
vector of length 1024 instead of raising. -/
theorem claim1_invalid_smiles_gives_zero_vector {Mol : Type}
    (MolFromSmiles : String → Option Mol) (morgan_gen : MorganGenerator Mol)
    (s : String) (h : MolFromSmiles s = none) :
    compute_morgan_fingerprint MolFromSmiles morgan_gen s =
      List.replicate 1024 0 := by
  unfold compute_morgan_fingerprint
  rw [h]

theorem claim1_witness :
    toyMolFromSmiles "not-a-molecule" = none ∧
    compute_morgan_fingerprint toyMolFromSmiles toyGen "not-a-molecule" =
      List.replicate 1024 0 :=
  ⟨by decide,
   claim1_invalid_smiles_gives_zero_vector toyMolFromSmiles toyGen
     "not-a-molecule" (by decide)⟩

/-- Claim C2: for every input string, valid or not, the encoder returns a
vector of exactly 1024 entries, each non-negative, given the Morgan
generator's documented contract (1024 bits, bit values non-negative). -/
theorem claim2_fingerprint_shape {Mol : Type}
    (MolFromSmiles : String → Option Mol) (morgan_gen : MorganGenerator Mol)
    (hsize : ∀ m, (morgan_gen.getFingerprint m).length = 1024)
    (hnonneg : ∀ m, ∀ x ∈ morgan_gen.getFingerprint m, 0 ≤ x) (s : String) :
    (compute_morgan_fingerprint MolFromSmiles morgan_gen s).length = 1024 ∧
    ∀ x ∈ compute_morgan_fingerprint MolFromSmiles morgan_gen s, 0 ≤ x := by
  unfold compute_morgan_fingerprint
  cases h : MolFromSmiles s with
  | some mol => exact ⟨hsize mol, hnonneg mol⟩
  | none =>
    constructor
    · exact List.length_replicate 1024 0
    · intro x hx
      exact le_of_eq (List.eq_of_mem_replicate hx).symm

theorem claim2_witness :
    (∀ m, (toyGen.getFingerprint m).length = 1024) ∧
    (∀ m, ∀ x ∈ toyGen.getFingerprint m, 0 ≤ x) ∧
    ((compute_morgan_fingerprint toyMolFromSmiles toyGen "CCO").length = 1024 ∧
      ∀ x ∈ compute_morgan_fingerprint toyMolFromSmiles toyGen "CCO", 0 ≤ x) := by
  have h1 : ∀ m, (toyGen.getFingerprint m).length = 1024 := by
    intro m
    exact List.length_replicate 1024 1
  have h2 : ∀ m, ∀ x ∈ toyGen.getFingerprint m, 0 ≤ x := by
    intro m x hx
    have hx1 : x = 1 := List.eq_of_mem_replicate hx
    rw [hx1]
    decide
  exact ⟨h1, h2, claim2_fingerprint_shape toyMolFromSmiles toyGen h1 h2 "CCO"⟩

/-- Claim C4: selecting a keep-list of length K whose labels all occur among
the fingerprint frame's columns succeeds and yields exactly the columns of
the keep-list in its order, with every result row of exactly K entries. -/
theorem claim4_select_keeps_order_and_width (X : DataFrame Int)
    (keep : List String) (h : ∀ c ∈ keep, c ∈ X.columns) :
    ∃ Xr, X.selectCols 0 keep = Except.ok Xr ∧ Xr.columns = keep ∧
      Xr.rows.length = X.rows.length ∧ ∀ r ∈ Xr.rows, r.length = keep.length :=
  selectCols_ok X 0 keep h

theorem claim4_witness :
    (∀ c ∈ ["1", "0"], c ∈ Xw.columns) ∧
    ∃ Xr, Xw.selectCols 0 ["1", "0"] = Except.ok Xr ∧ Xr.columns = ["1", "0"] ∧
      Xr.rows.length = Xw.rows.length ∧
      ∀ r ∈ Xr.rows, r.length = (["1", "0"] : List String).length :=
  ⟨by decide, claim4_select_keeps_order_and_width Xw ["1", "0"] (by decide)⟩

/-- Claim C6: an uploaded table without a column named SMILES gets the
specific missing-column error message, and the pipeline never starts (the
result is the missing-column report, not a processing outcome). -/
theorem claim6_missing_smiles_column_reported {Mol P : Type}
    (MolFromSmiles : String → Option Mol) (gen : MorganGenerator Mol)
    (model : List (List Int) → List P) (reduced_columns : List String)
    (df : DataFrame (Cell P)) (h : "SMILES" ∉ df.columns) :
    runUpload MolFromSmiles gen model reduced_columns df =
      RunResult.missingColumn missingColumnMessage := by
  unfold runUpload
  rw [if_neg h]

theorem claim6_witness :
    "SMILES" ∉ dfNoSmiles.columns ∧
    runUpload toyMolFromSmiles toyGen toyModel ["0"] dfNoSmiles =
      RunResult.missingColumn missingColumnMessage :=
  ⟨by decide,
   claim6_missing_smiles_column_reported toyMolFromSmiles toyGen toyModel
     ["0"] dfNoSmiles (by decide)⟩

/-- Claim C8: the encoder is deterministic; over the row-wise map of line
121, any two rows holding the same SMILES string receive identical
fingerprint vectors. -/
theorem claim8_encoder_deterministic {Mol : Type}
    (MolFromSmiles : String → Option Mol) (morgan_gen : MorganGenerator Mol)
    (smilesList : List String) (i j : Nat)
    (h : smilesList[i]? = smilesList[j]?) :
    (smilesList.map (compute_morgan_fingerprint MolFromSmiles morgan_gen))[i]? =
      (smilesList.map (compute_morgan_fingerprint MolFromSmiles morgan_gen))[j]? := by
  rw [List.getElem?_map, List.getElem?_map, h]

theorem claim8_witness :
    (["CCO", "CC(=O)O", "CCO"] : List String)[0]? =
      (["CCO", "CC(=O)O", "CCO"] : List String)[2]? ∧
    (["CCO", "CC(=O)O", "CCO"].map
        (compute_morgan_fingerprint toyMolFromSmiles toyGen))[0]? =
      (["CCO", "CC(=O)O", "CCO"].map
        (compute_morgan_fingerprint toyMolFromSmiles toyGen))[2]? :=
  ⟨rfl,
   claim8_encoder_deterministic toyMolFromSmiles toyGen
     ["CCO", "CC(=O)O", "CCO"] 0 2 rfl⟩

/-- Claim C3: an uploaded table of N ≥ 1 rows whose SMILES values are all
unparseable still yields N prediction rows; the invalid molecules become
zero-vector fingerprints and are not dropped before inference. -/
theorem claim3_unparseable_rows_still_predicted {Mol P : Type}
    (MolFromSmiles : String → Option Mol) (gen : MorganGenerator Mol)
    (model : List (List Int) → List P) (reduced_columns : List String)
    (df : DataFrame (Cell P)) (hw : df.Wf) (hS : "SMILES" ∈ df.columns)
    (hunp : ∀ c ∈ (df.getColD Cell.na "SMILES").getD [],
      Cell.unparseable MolFromSmiles c = true)
    (hred : ∀ c ∈ reduced_columns, c ∈ (List.range 1024).map (fun i => toString i))
    (hmodel : ∀ xs, (model xs).length = xs.length)
    (hne : df.rows ≠ []) :
    ∃ tbl dl, runUpload MolFromSmiles gen model reduced_columns df =
        RunResult.success tbl dl ∧
      tbl.rows.length = df.rows.length ∧
      dl.rows.length = df.rows.length ∧
      tbl.getColD Cell.na "Fingerprint" =
        some (List.replicate df.rows.length (Cell.fp (List.replicate 1024 0))) := by
  have hstr : ∀ c ∈ (df.getColD Cell.na "SMILES").getD [], Cell.isStr c = true := by
    intro c hc
    have hcu := hunp c hc
    cases c with
    | str s => rfl
    | fp v => simp [Cell.unparseable] at hcu
    | pred p => simp [Cell.unparseable] at hcu
    | na => simp [Cell.unparseable] at hcu
  obtain ⟨tbl, dl, sc, hr, hsc, htlen, htfp, -, -, hdlc, hdllen, -⟩ :=
    pipeline_success MolFromSmiles gen model reduced_columns df hw hS hstr hred
      hmodel hne
  refine ⟨tbl, dl, hr, htlen, hdllen, ?_⟩
  rw [htfp]
  congr 1
  have hlen_sc : sc.length = df.rows.length := getColD_length hsc
  rw [List.eq_replicate_iff]
  constructor
  · rw [List.length_map, hlen_sc]
  · intro b hb
    obtain ⟨c, hcm, rfl⟩ := List.mem_map.mp hb
    have hcu : Cell.unparseable MolFromSmiles c = true := by
      apply hunp
      rw [hsc]
      exact hcm
    cases c with
    | str s =>
      have hnone : MolFromSmiles s = none := by
        simpa [Cell.unparseable, Option.isNone_iff_eq_none] using hcu
      simp only [fingerprintCellOf, compute_morgan_fingerprint, hnone]
    | fp v => simp [Cell.unparseable] at hcu
    | pred p => simp [Cell.unparseable] at hcu
    | na => simp [Cell.unparseable] at hcu

theorem claim3_witness :
    dfTwoRows.Wf ∧ dfTwoRows.rows ≠ [] ∧
    (∀ c ∈ (dfTwoRows.getColD Cell.na "SMILES").getD [],
      Cell.unparseable toyMolFromSmiles c = true) ∧
    ∃ tbl dl, runUpload toyMolFromSmiles toyGen toyModel ["0"] dfTwoRows =
        RunResult.success tbl dl ∧
      tbl.rows.length = dfTwoRows.rows.length ∧
      dl.rows.length = dfTwoRows.rows.length ∧
      tbl.getColD Cell.na "Fingerprint" =
        some (List.replicate dfTwoRows.rows.length
          (Cell.fp (List.replicate 1024 0))) := by
  refine ⟨by decide, by decide, by decide, ?_⟩
  exact claim3_unparseable_rows_still_predicted toyMolFromSmiles toyGen toyModel
    ["0"] dfTwoRows (by decide) (by decide) (by decide) (by decide)
    (fun xs => List.length_map xs _) (by decide)

set_option maxRecDepth 4000 in
/-- Claim C5: a keep-list mentioning a column absent from the fingerprint
frame's columns "0".."1023" makes the selection raise a KeyError, which
only the top-level generic handler reports; the run never silently
succeeds. -/
theorem claim5_missing_feature_column_errors {Mol P : Type}
    (MolFromSmiles : String → Option Mol) (gen : MorganGenerator Mol)
    (model : List (List Int) → List P) (reduced_columns : List String)
    (df : DataFrame (Cell P)) (hw : df.Wf) (hS : "SMILES" ∈ df.columns)
    (hstr : ∀ c ∈ (df.getColD Cell.na "SMILES").getD [], Cell.isStr c = true)
    (hne : df.rows ≠ [])
    (hbad : ∃ c ∈ reduced_columns,
      c ∉ (List.range 1024).map (fun i => toString i)) :
    runUpload MolFromSmiles gen model reduced_columns df =
      RunResult.genericError "KeyError: columns not in index" := by
  obtain ⟨F, sc, hrun, hsc, hlen_sc, hsc', hFlen, hFwf, hFget, hFother, hFmem, hFfp⟩ :=
    stage1 MolFromSmiles gen model reduced_columns df hw hS hstr hne
  have hX := renameNumericCols_mkX
    (fingerprintMatrix (sc.map (fingerprintCellOf MolFromSmiles gen)))
  have hbad2 : ¬ ∀ n ∈ reduced_columns,
      n ∈ (DataFrame.mk ((List.range 1024).map (fun i => toString i))
        (fingerprintMatrix (sc.map (fingerprintCellOf MolFromSmiles gen)))).columns := by
    intro hall
    obtain ⟨c, hcm, hcn⟩ := hbad
    exact hcn (hall c hcm)
  have hsel := selectCols_error _ 0 reduced_columns hbad2
  rw [hrun]
  simp only [predictAndAttach, hFget, hX, hsel]

theorem claim5_witness :
    (∃ c ∈ ["zz"], c ∉ (List.range 1024).map (fun i => toString i)) ∧
    runUpload toyMolFromSmiles toyGen toyModel ["zz"] dfOneRow =
      RunResult.genericError "KeyError: columns not in index" := by
  refine ⟨by decide, ?_⟩
  exact claim5_missing_feature_column_errors toyMolFromSmiles toyGen toyModel
    ["zz"] dfOneRow (by decide) (by decide) (by decide) (by decide) (by decide)

/-- Claim C7: every successful run hands out a download frame with exactly
the two columns SMILES and Predição_Bioatividade, one row per processed
molecule of the result table, with the SMILES column carried over in the
same row order. -/
theorem claim7_download_contract {Mol P : Type}
    (MolFromSmiles : String → Option Mol) (gen : MorganGenerator Mol)
    (model : List (List Int) → List P) (reduced_columns : List String)
    (df tbl dl : DataFrame (Cell P))
    (h : runUpload MolFromSmiles gen model reduced_columns df =
      RunResult.success tbl dl) :
    dl.columns = ["SMILES", "Predição_Bioatividade"] ∧
    dl.rows.length = tbl.rows.length ∧
    dl.getColD Cell.na "SMILES" = tbl.getColD Cell.na "SMILES" := by
  unfold runUpload at h
  split at h
  · unfold processMolecules at h
    split at h
    · exact RunResult.noConfusion h
    · split at h
      · exact RunResult.noConfusion h
      · split at h
        · exact RunResult.noConfusion h
        · split at h
          · exact RunResult.noConfusion h
          · split at h
            · exact RunResult.noConfusion h
            · unfold predictAndAttach at h
              split at h
              · exact RunResult.noConfusion h
              · split at h
                · exact RunResult.noConfusion h
                · split at h
                  · exact RunResult.noConfusion h
                  · rename_i withPred hwp
                    split at h
                    · exact RunResult.noConfusion h
                    · rename_i download hdl
                      obtain ⟨h1, h2⟩ := RunResult.success.inj h
                      subst h1
                      subst h2
                      obtain ⟨hcols, hlen, hwidth, hmemall⟩ := selectCols_ok_inv hdl
                      have hSm : "SMILES" ∈ withPred.columns :=
                        hmemall "SMILES" (by simp)
                      obtain ⟨iS, hiS⟩ := colIdxAux_mem hSm
                      have hhead := selectCols_getCol_head hiS hdl
                      exact ⟨hcols, hlen, hhead⟩
  · exact RunResult.noConfusion h

theorem claim7_witness :
    runUpload toyMolFromSmiles toyGen toyModel ["0"] dfOneRow =
      RunResult.success tblOneRow dlOneRow ∧
    (dlOneRow.columns = ["SMILES", "Predição_Bioatividade"] ∧
      dlOneRow.rows.length = tblOneRow.rows.length ∧
      dlOneRow.getColD Cell.na "SMILES" = tblOneRow.getColD Cell.na "SMILES") :=
  ⟨by decide,
   claim7_download_contract toyMolFromSmiles toyGen toyModel ["0"] dfOneRow
     tblOneRow dlOneRow (by decide)⟩

/-- Claim C9, counterexample: an upload whose extra column happens to be
named Fingerprint is not passed through untouched — the pipeline overwrites
it with the computed fingerprints. -/
theorem claim9_counterexample :
    runUpload toyMolFromSmiles toyGen toyModel ["0"] dfFpColumn =
      RunResult.success tblOneRow dlOneRow ∧
    tblOneRow.getColD Cell.na "Fingerprint" ≠
      dfFpColumn.getColD Cell.na "Fingerprint" := by
  constructor
  · decide
  · decide

/-- Claim C9, amended: every uploaded column other than the two reserved
names Fingerprint and Predição_Bioatividade is passed through to the result
table untouched: it is still present and holds exactly the uploaded values,
in the same row order. -/
theorem claim9_amended_passthrough {Mol P : Type}
    (MolFromSmiles : String → Option Mol) (gen : MorganGenerator Mol)
    (model : List (List Int) → List P) (reduced_columns : List String)
    (df : DataFrame (Cell P)) (hw : df.Wf) (hS : "SMILES" ∈ df.columns)
    (hstr : ∀ c ∈ (df.getColD Cell.na "SMILES").getD [], Cell.isStr c = true)
    (hred : ∀ c ∈ reduced_columns, c ∈ (List.range 1024).map (fun i => toString i))
    (hmodel : ∀ xs, (model xs).length = xs.length)
    (hne : df.rows ≠ []) :
    ∃ tbl dl, runUpload MolFromSmiles gen model reduced_columns df =
        RunResult.success tbl dl ∧
      ∀ c ∈ df.columns, c ≠ "Fingerprint" → c ≠ "Predição_Bioatividade" →
        c ∈ tbl.columns ∧ tbl.getColD Cell.na c = df.getColD Cell.na c := by
  obtain ⟨tbl, dl, sc, hr, hsc, -, -, -, huntouched, -, -, -⟩ :=
    pipeline_success MolFromSmiles gen model reduced_columns df hw hS hstr hred
      hmodel hne
  refine ⟨tbl, dl, hr, ?_⟩
  intro c hcm h1 h2
  refine ⟨?_, huntouched c h1 h2⟩
  obtain ⟨vs, hvs⟩ := getColD_of_mem (f := df) Cell.na hcm
  have hsome : tbl.getColD Cell.na c = some vs := by
    rw [huntouched c h1 h2, hvs]
  obtain ⟨i, hi, -⟩ := getColD_some_inv hsome
  exact mem_of_colIdxAux hi

theorem claim9_witness :
    dfExtra.Wf ∧ "SMILES" ∈ dfExtra.columns ∧ dfExtra.rows ≠ [] ∧
    ∃ tbl dl, runUpload toyMolFromSmiles toyGen toyModel ["0"] dfExtra =
        RunResult.success tbl dl ∧
      ∀ c ∈ dfExtra.columns, c ≠ "Fingerprint" → c ≠ "Predição_Bioatividade" →
        c ∈ tbl.columns ∧ tbl.getColD Cell.na c = dfExtra.getColD Cell.na c := by
  refine ⟨by decide, by decide, by decide, ?_⟩
  exact claim9_amended_passthrough toyMolFromSmiles toyGen toyModel ["0"]
    dfExtra (by decide) (by decide) (by decide) (by decide)
    (fun xs => List.length_map xs _) (by decide)

/-- Claim C10: the dropna on the Fingerprint column removes no rows, since
the encoder always yields a list; hence the no-valid-molecules report is
given exactly when the uploaded table has zero rows, and otherwise every
input row is carried through to a prediction. -/
theorem claim10_no_valid_iff_empty {Mol P : Type}
    (MolFromSmiles : String → Option Mol) (gen : MorganGenerator Mol)
    (model : List (List Int) → List P) (reduced_columns : List String)
    (df : DataFrame (Cell P)) (hw : df.Wf) (hS : "SMILES" ∈ df.columns)
    (hstr : ∀ c ∈ (df.getColD Cell.na "SMILES").getD [], Cell.isStr c = true)
    (hred : ∀ c ∈ reduced_columns, c ∈ (List.range 1024).map (fun i => toString i))
    (hmodel : ∀ xs, (model xs).length = xs.length) :
    (runUpload MolFromSmiles gen model reduced_columns df =
        RunResult.noValidMolecules noValidMoleculesMessage ↔ df.rows = []) ∧
    (df.rows ≠ [] → ∃ tbl dl, ∃ preds : List P,
      runUpload MolFromSmiles gen model reduced_columns df =
        RunResult.success tbl dl ∧
      tbl.rows.length = df.rows.length ∧
      preds.length = df.rows.length ∧
      tbl.getColD Cell.na "Predição_Bioatividade" = some (preds.map Cell.pred)) := by
  constructor
  · constructor
    · intro hrun
      by_contra hne
      obtain ⟨tbl, dl, sc, hr, -, -, -, -, -, -, -, -⟩ :=
        pipeline_success MolFromSmiles gen model reduced_columns df hw hS hstr
          hred hmodel hne
      rw [hr] at hrun
      exact RunResult.noConfusion hrun
    · intro h0
      exact pipeline_empty MolFromSmiles gen model reduced_columns df hS h0
  · intro hne
    obtain ⟨tbl, dl, sc, hr, hsc, htlen, -, hpreds, -, -, -, -⟩ :=
      pipeline_success MolFromSmiles gen model reduced_columns df hw hS hstr
        hred hmodel hne
    obtain ⟨preds, hplen, hpred⟩ := hpreds
    exact ⟨tbl, dl, preds, hr, htlen, hplen, hpred⟩

theorem claim10_witness :
    ((runUpload toyMolFromSmiles toyGen toyModel ["0", "5"] (example_data Int) =
        RunResult.noValidMolecules noValidMoleculesMessage ↔
      (example_data Int).rows = []) ∧
    ((example_data Int).rows ≠ [] → ∃ tbl dl, ∃ preds : List Int,
      runUpload toyMolFromSmiles toyGen toyModel ["0", "5"] (example_data Int) =
        RunResult.success tbl dl ∧
      tbl.rows.length = (example_data Int).rows.length ∧
      preds.length = (example_data Int).rows.length ∧
      tbl.getColD Cell.na "Predição_Bioatividade" =
        some (preds.map Cell.pred))) :=
  claim10_no_valid_iff_empty toyMolFromSmiles toyGen toyModel ["0", "5"]
    (example_data Int) (by decide) (by decide) (by decide) (by decide)
    (fun xs => List.length_map xs _)

end Covid
